import Mathlib

/-!
Verification of the task-routing and status-tracking kernel of the
API Gateway Agent (src/agent/api-gateway-agent.py).

The Python module is embedded shallowly:
  * JSON-like values become the inductive `Val`;
  * the `TaskType` / `Priority` enums become Lean inductives;
  * the pure handler `execute_cloudflare_task` becomes a pure function;
  * the handlers that perform outbound HTTP calls (`execute_pi_task`,
    `execute_worker_task`) take an `Env` oracle describing the outcome of
    each downstream call: `.ok v` means the call returned JSON `v`,
    `.error e` means the call raised an exception rendered as `e`
    (the Python code catches it and returns an error payload);
  * the global `task_store` / `task_metrics` dictionaries become the
    `GatewayState` record, threaded explicitly;
  * background execution becomes a small-step transition function
    `stepFn` over events (submission, the executor picking a task up,
    the executor finishing a task), and traces are run by `execTrace`.
Wall-clock timestamps are oracle parameters (`Nat` instants for the
ledger, a `String` for the ISO timestamps embedded in handler payloads).
-/

/-- JSON-like values, modelling Python dicts/lists/scalars as used by the
gateway (task payloads, handler results, downstream responses). -/
inductive Val where
  | null
  | str (s : String)
  | bool (b : Bool)
  | int (n : Int)
  | arr (xs : List Val)
  | obj (fields : List (String × Val))

/-- Field lookup on an object value (Python `d["k"]` / `d.get("k")`). -/
def Val.get : Val → String → Option Val
  | .obj fs, k => fs.lookup k
  | _, _ => none

/-- Python `d.get(k, default)` on a task's `data` dict. -/
def dget (d : List (String × Val)) (k : String) (default : Val) : Val :=
  (d.lookup k).getD default

/-- The `TaskType` enum of api-gateway-agent.py (11 members). -/
inductive TaskType where
  | dns_update
  | cache_purge
  | ssl_check
  | firewall_rule
  | rate_limit
  | worker_deploy
  | analytics_query
  | health_check
  | system_metric
  | backup
  | security_scan
deriving DecidableEq, Repr

/-- The string value of each `TaskType` member. -/
def TaskType.toStr : TaskType → String
  | .dns_update => "dns_update"
  | .cache_purge => "cache_purge"
  | .ssl_check => "ssl_check"
  | .firewall_rule => "firewall_rule"
  | .rate_limit => "rate_limit"
  | .worker_deploy => "worker_deploy"
  | .analytics_query => "analytics_query"
  | .health_check => "health_check"
  | .system_metric => "system_metric"
  | .backup => "backup"
  | .security_scan => "security_scan"

/-- Pydantic coercion of a raw string into the `TaskType` enum: the value
strings of the 11 members are accepted, everything else is a validation
error (modelled as `none`). -/
def parseTaskType (s : String) : Option TaskType :=
  if s = "dns_update" then some .dns_update
  else if s = "cache_purge" then some .cache_purge
  else if s = "ssl_check" then some .ssl_check
  else if s = "firewall_rule" then some .firewall_rule
  else if s = "rate_limit" then some .rate_limit
  else if s = "worker_deploy" then some .worker_deploy
  else if s = "analytics_query" then some .analytics_query
  else if s = "health_check" then some .health_check
  else if s = "system_metric" then some .system_metric
  else if s = "backup" then some .backup
  else if s = "security_scan" then some .security_scan
  else none

/-- The `Priority` enum. -/
inductive Priority where
  | critical
  | high
  | medium
  | low
deriving DecidableEq, Repr

/-- Task status strings used in the ledger:
pending, processing, completed, failed. -/
inductive Status where
  | pending
  | processing
  | completed
  | failed
deriving DecidableEq, Repr

/-- The `TaskRequest` pydantic model (the `data` payload is an ordered
dict of JSON values; `schedule` is optional; `retry_count` defaults to 3
and `timeout` to 300 in the source). -/
structure TaskRequest where
  type : TaskType
  priority : Priority
  data : List (String × Val)
  schedule : Option String
  retry_count : Nat
  timeout : Nat

/-- One entry of the in-memory `task_store` dict. The Python entry is
created with keys id/request/status/created_at/updated_at/result (result
initially `None`); the `error` key is only ever added on failure, so both
`result` and `error` are `Option`s that start out `none`. -/
structure TaskRecord where
  id : String
  request : TaskRequest
  status : Status
  created_at : Nat
  updated_at : Nat
  result : Option Val
  error : Option String

/-- The `TaskResponse` model returned by `POST /api/v1/tasks`. -/
structure TaskResponse where
  task_id : String
  status : String
  message : String
  created_at : Nat
  estimated_completion : Option Nat

/-- A FastAPI `HTTPException` as raised by the gateway. -/
structure GatewayError where
  status_code : Nat
  detail : String
deriving DecidableEq, Repr

/-- Rendering of an exception by Python `str(e)` when `process_task`
captures it into the record's `error` field. -/
def GatewayError.str (e : GatewayError) : String :=
  toString e.status_code ++ ": " ++ e.detail

/-- Outcome oracle for the downstream HTTP calls a single handler run can
make: the Pi executor's `/health` and `/metrics` endpoints and the
Worker's `/tasks` endpoint. `.ok v` is a response whose `.json()` is `v`;
`.error e` is any exception in the call (rendered by `str(e)` as `e`). -/
structure Env where
  piHealth : Except String Val
  piMetrics : Except String Val
  workerResp : Except String Val

/-- The error payload `{"status": "error", "message": str(e)}` returned by
`execute_pi_task` / `execute_worker_task` when the downstream call raises. -/
def errPayload (e : String) : Val :=
  .obj [("status", .str "error"), ("message", .str e)]

/-- `execute_cloudflare_task`: builds a result dict locally (the source
only simulates the Cloudflare API: no outbound call, hence no `Env`
argument), with `status` set to `"success"` and a type-specific `data`
sub-object for dns_update and cache_purge. `nowStr` stands for
`datetime.now().isoformat()`. -/
def execute_cloudflare_task (nowStr : String) (task : TaskRequest) : Val :=
  let data : Val :=
    if task.type = TaskType.dns_update then
      .obj [("record", dget task.data "record" .null),
            ("type", dget task.data "type" (.str "A")),
            ("content", dget task.data "content" .null),
            ("updated_at", .str nowStr)]
    else if task.type = TaskType.cache_purge then
      .obj [("purged_urls", dget task.data "urls" (.arr [])),
            ("purge_everything", dget task.data "purge_everything" (.bool false)),
            ("purged_at", .str nowStr)]
    else .obj []
  .obj [("service", .str "cloudflare"),
        ("task_type", .str task.type.toStr),
        ("status", .str "success"),
        ("data", data)]

/-- `execute_pi_task`: calls the Pi executor over HTTP; any exception is
caught and turned into an error payload returned normally. For task types
other than health_check / system_metric the Python function falls off the
end and returns `None`. -/
def execute_pi_task (env : Env) (task : TaskRequest) : Val :=
  match task.type with
  | .health_check =>
      match env.piHealth with
      | .ok v => v
      | .error e => errPayload e
  | .system_metric =>
      match env.piMetrics with
      | .ok v => v
      | .error e => errPayload e
  | _ => .null

/-- `execute_worker_task`: posts the task to the Worker; any exception is
caught and turned into an error payload returned normally. -/
def execute_worker_task (env : Env) (_task : TaskRequest) : Val :=
  match env.workerResp with
  | .ok v => v
  | .error e => errPayload e

/-- `execute_hybrid_task`: for security_scan, first queries the Pi for
system metrics, then lists Cloudflare firewall rules, merging both into
one dict keyed by sub-service name. For any other type (in particular
backup, which is routed here) the `results` dict stays empty. The inner
`TaskRequest(...)` constructions use the pydantic defaults
schedule=None, retry_count=3, timeout=300. -/
def execute_hybrid_task (env : Env) (nowStr : String) (task : TaskRequest) : Val :=
  if task.type = TaskType.security_scan then
    let pi_result := execute_pi_task env
      { type := .system_metric, priority := task.priority, data := [],
        schedule := none, retry_count := 3, timeout := 300 }
    let cf_result := execute_cloudflare_task nowStr
      { type := .firewall_rule, priority := task.priority,
        data := [("action", .str "list")],
        schedule := none, retry_count := 3, timeout := 300 }
    .obj [("system", pi_result), ("cloudflare", cf_result)]
  else .obj []

/-- `route_task`: the chained-conditional dispatch. Returns `.error` for
the `HTTPException(400, ...)` raised in the final else branch. Note that
`TaskType.rate_limit` is matched by none of the four membership tests. -/
def route_task (env : Env) (nowStr : String) (task : TaskRequest) :
    Except GatewayError Val :=
  if task.type ∈ [TaskType.dns_update, TaskType.cache_purge,
                  TaskType.ssl_check, TaskType.firewall_rule] then
    .ok (execute_cloudflare_task nowStr task)
  else if task.type ∈ [TaskType.system_metric, TaskType.health_check] then
    .ok (execute_pi_task env task)
  else if task.type ∈ [TaskType.worker_deploy, TaskType.analytics_query] then
    .ok (execute_worker_task env task)
  else if task.type ∈ [TaskType.security_scan, TaskType.backup] then
    .ok (execute_hybrid_task env nowStr task)
  else
    .error { status_code := 400,
             detail := "Unknown task type: " ++ task.type.toStr }

/-- The `get_task_service` capability table of the source: its own
declaration of which family owns each task type (note rate_limit is
declared to belong to the cloudflare family). -/
def get_task_service : TaskType → String
  | .dns_update => "cloudflare"
  | .cache_purge => "cloudflare"
  | .ssl_check => "cloudflare"
  | .firewall_rule => "cloudflare"
  | .rate_limit => "cloudflare"
  | .worker_deploy => "worker"
  | .analytics_query => "worker"
  | .health_check => "pi_executor"
  | .system_metric => "pi_executor"
  | .backup => "hybrid"
  | .security_scan => "hybrid"

/-- Lookup in the `task_store` dict (first matching key). -/
def lookupStore : List (String × TaskRecord) → String → Option TaskRecord
  | [], _ => none
  | p :: rest, k => if p.1 = k then some p.2 else lookupStore rest k

/-- Python dict assignment `task_store[k] = v`: replace the existing entry
in place, or append a new one. -/
def storeSet : List (String × TaskRecord) → String → TaskRecord → List (String × TaskRecord)
  | [], k, v => [(k, v)]
  | p :: rest, k, v => if p.1 = k then (k, v) :: rest else p :: storeSet rest k v

/-- In-place mutation of an existing entry (the `task_store[id][...] = ...`
updates of `process_task`): replaces the first entry with the given key. -/
def updateStore : List (String × TaskRecord) → String → TaskRecord → List (String × TaskRecord)
  | [], _, _ => []
  | p :: rest, k, v => if p.1 = k then (k, v) :: rest else p :: updateStore rest k v

/-- 1 when the record is in a terminal status, else 0. -/
def termBit (r : TaskRecord) : Nat :=
  if r.status = Status.completed ∨ r.status = Status.failed then 1 else 0

/-- Number of ledger entries in a terminal status. -/
def countTerminal : List (String × TaskRecord) → Nat
  | [] => 0
  | p :: rest => termBit p.2 + countTerminal rest

/-- Lookup in the `by_type` counters dict (default 0, as in
`task_metrics["by_type"].get(task.type, 0)`). -/
def getType : List (TaskType × Nat) → TaskType → Nat
  | [], _ => 0
  | p :: rest, t => if p.1 = t then p.2 else getType rest t

/-- Assignment into the `by_type` dict. -/
def setType : List (TaskType × Nat) → TaskType → Nat → List (TaskType × Nat)
  | [], t, n => [(t, n)]
  | p :: rest, t, n => if p.1 = t then (t, n) :: rest else p :: setType rest t n

/-- `task_metrics["by_type"][t] = task_metrics["by_type"].get(t, 0) + 1`. -/
def bumpType (m : List (TaskType × Nat)) (t : TaskType) : List (TaskType × Nat) :=
  setType m t (getType m t + 1)

/-- The module-level mutable state: the `task_store` dict and the
`task_metrics` dict (total / completed / failed / by_type). -/
structure GatewayState where
  task_store : List (String × TaskRecord)
  total : Nat
  completed : Nat
  failed : Nat
  by_type : List (TaskType × Nat)

/-- The state at process start: empty store, all counters zero. -/
def initialState : GatewayState :=
  { task_store := [], total := 0, completed := 0, failed := 0, by_type := [] }

/-- The `create_task` endpoint body (after pydantic validation):
generates an id (`task_id` is the oracle for `uuid.uuid4()`), stores a
pending record, bumps `total` and the per-type counter, schedules
background execution, and returns the `TaskResponse`. `now` is the oracle
for `datetime.now()`. -/
def create_task (st : GatewayState) (task : TaskRequest) (task_id : String)
    (now : Nat) : GatewayState × TaskResponse :=
  let record : TaskRecord :=
    { id := task_id, request := task, status := .pending,
      created_at := now, updated_at := now, result := none, error := none }
  let st' : GatewayState :=
    { st with
      task_store := storeSet st.task_store task_id record,
      total := st.total + 1,
      by_type := bumpType st.by_type task.type }
  (st', { task_id := task_id, status := "pending",
          message := "Task " ++ task.type.toStr ++ " queued for processing",
          created_at := now,
          estimated_completion := some (now + task.timeout) })

/-- The full `POST /api/v1/tasks` pipeline including pydantic validation
of the raw `type` string: an unrecognized type is rejected with a 422
validation error before `create_task` runs, leaving the state untouched. -/
def handle_post_task (st : GatewayState) (typeStr : String) (priority : Priority)
    (data : List (String × Val)) (schedule : Option String) (retry_count : Nat)
    (timeout : Nat) (task_id : String) (now : Nat) :
    GatewayState × Except GatewayError TaskResponse :=
  match parseTaskType typeStr with
  | none =>
      (st, .error { status_code := 422,
                    detail := "Input should be a valid TaskType" })
  | some t =>
      let out := create_task st
        { type := t, priority := priority, data := data,
          schedule := schedule, retry_count := retry_count, timeout := timeout }
        task_id now
      (out.1, .ok out.2)

/-- The `GET /api/v1/tasks/task_id` endpoint: 404 when the id is absent
from the store, otherwise the stored record (read-only: the handler is a
pure function of the state). -/
def get_task (st : GatewayState) (task_id : String) :
    Except GatewayError TaskRecord :=
  match lookupStore st.task_store task_id with
  | none => .error { status_code := 404, detail := "Task not found" }
  | some r => .ok r

/-- Atomic events of the gateway between await points: a validated
submission (with its uuid and clock oracles), the background executor
picking a task up (`status = "processing"`), and the executor finishing
it (running `route_task` against the downstream outcomes `env` and
recording the terminal status). -/
inductive Event where
  | submit (task : TaskRequest) (task_id : String) (now : Nat)
  | start (task_id : String) (now : Nat)
  | finish (task_id : String) (env : Env) (nowStr : String) (now : Nat)

/-- One step of the system. `none` means the event cannot occur: a submit
whose uuid collides (probability negligible per the spec; each submission
draws a fresh 128-bit identifier), or an executor phase for a task that is
not in the matching status (each submission schedules exactly one
`process_task`, which runs its phases in order). -/
def stepFn (st : GatewayState) : Event → Option GatewayState
  | .submit task task_id now =>
      match lookupStore st.task_store task_id with
      | none => some (create_task st task task_id now).1
      | some _ => none
  | .start task_id now =>
      match lookupStore st.task_store task_id with
      | none => none
      | some r =>
          if r.status = Status.pending then
            let r2 : TaskRecord := { r with status := .processing, updated_at := now }
            some { st with task_store := updateStore st.task_store task_id r2 }
          else none
  | .finish task_id env nowStr now =>
      match lookupStore st.task_store task_id with
      | none => none
      | some r =>
          if r.status = Status.processing then
            match route_task env nowStr r.request with
            | .ok v =>
                let r2 : TaskRecord :=
                  { r with status := .completed, result := some v, updated_at := now }
                some { st with task_store := updateStore st.task_store task_id r2,
                               completed := st.completed + 1 }
            | .error e =>
                let r2 : TaskRecord :=
                  { r with status := .failed, error := some e.str, updated_at := now }
                some { st with task_store := updateStore st.task_store task_id r2,
                               failed := st.failed + 1 }
          else none

/-- Run a trace of events from a state; `none` as soon as an event cannot
occur. -/
def execTrace : List Event → GatewayState → Option GatewayState
  | [], st => some st
  | e :: rest, st =>
      match stepFn st e with
      | some st' => execTrace rest st'
      | none => none

/-- Number of submissions in a trace. -/
def countSubmits : List Event → Nat
  | [] => 0
  | .submit _ _ _ :: rest => 1 + countSubmits rest
  | _ :: rest => countSubmits rest

/-- Linear order of the status lifecycle: a later stage has a higher rank;
the two terminal statuses share the top rank. -/
def Status.rank : Status → Nat
  | .pending => 0
  | .processing => 1
  | .completed => 2
  | .failed => 2

/-- Forward movement along the lifecycle: stay put or move to a strictly
later stage (so completed and failed are not reachable from each other). -/
def Status.le (a b : Status) : Prop := a = b ∨ a.rank < b.rank

/-- A status is terminal when it is completed or failed. -/
def Status.isTerminal (a : Status) : Prop := a = .completed ∨ a = .failed

/-- Consistency of one ledger record: `result` is set exactly for
completed records and `error` exactly for failed ones. -/
def RecordOK (r : TaskRecord) : Prop :=
  (r.result.isSome ↔ r.status = Status.completed) ∧
  (r.error.isSome ↔ r.status = Status.failed)

/-- Every record reachable through the store satisfies `RecordOK`. -/
def StoreOK (l : List (String × TaskRecord)) : Prop :=
  ∀ id r, lookupStore l id = some r → RecordOK r

/-- The system invariant: `total` counts the ledger entries,
`completed + failed` counts the terminal entries, and every entry is
internally consistent. -/
def GatewayInv (s : GatewayState) : Prop :=
  s.total = s.task_store.length ∧
  s.completed + s.failed = countTerminal s.task_store ∧
  StoreOK s.task_store

/-- An environment in which every downstream call succeeds with an empty
JSON object. -/
def sampleEnv : Env :=
  { piHealth := .ok (.obj []), piMetrics := .ok (.obj []),
    workerResp := .ok (.obj []) }

/-- An environment in which every downstream call raises (connection
refused). -/
def failEnv : Env :=
  { piHealth := .error "conn refused", piMetrics := .error "conn refused",
    workerResp := .error "conn refused" }

/-- A minimal request of the given type (data empty, pydantic defaults). -/
def mkReq (t : TaskType) : TaskRequest :=
  { type := t, priority := .medium, data := [], schedule := none,
    retry_count := 3, timeout := 300 }

/-- A default record used only as a `getD` fallback in concrete samples. -/
def defaultRecord : TaskRecord :=
  { id := "", request := mkReq .dns_update, status := .pending,
    created_at := 0, updated_at := 0, result := none, error := none }

/-- Sample trace: a system_metric task submitted, started, and finished
while the Pi executor is down. -/
def c2trace : List Event :=
  [.submit (mkReq .system_metric) "t-c2" 0, .start "t-c2" 1,
   .finish "t-c2" failEnv "now" 2]

/-- Sample state with one record still processing a rate_limit request. -/
def c2procState : GatewayState :=
  { task_store := [("w2", { id := "w2", request := mkReq .rate_limit,
                            status := .processing, created_at := 0,
                            updated_at := 0, result := none, error := none })],
    total := 1, completed := 0, failed := 0, by_type := [(.rate_limit, 1)] }

/-- The record of `c2procState`. -/
def c2procRecord : TaskRecord :=
  (lookupStore c2procState.task_store "w2").getD defaultRecord

/-- The HTTPException raised by `route_task` on a rate_limit task. -/
def rlErr : GatewayError :=
  { status_code := 400, detail := "Unknown task type: rate_limit" }

/-- Sample trace: one dns_update task run to completion. -/
def c4trace : List Event :=
  [.submit (mkReq .dns_update) "t-c4" 0, .start "t-c4" 1,
   .finish "t-c4" sampleEnv "n" 2]

/-- Final state of `c4trace`. -/
def c4state : GatewayState := (execTrace c4trace initialState).getD initialState

/-- Sample trace: one health_check task run to completion. -/
def c5trace : List Event :=
  [.submit (mkReq .health_check) "t-c5" 0, .start "t-c5" 1,
   .finish "t-c5" sampleEnv "n" 2]

/-- Final state of `c5trace`. -/
def c5state : GatewayState := (execTrace c5trace initialState).getD initialState

/-- The record of `c5state`. -/
def c5record : TaskRecord :=
  (lookupStore c5state.task_store "t-c5").getD defaultRecord

/-- Sample state with one record processing an ssl_check request. -/
def c6state : GatewayState :=
  { task_store := [("w6", { id := "w6", request := mkReq .ssl_check,
                            status := .processing, created_at := 0,
                            updated_at := 0, result := none, error := none })],
    total := 1, completed := 0, failed := 0, by_type := [(.ssl_check, 1)] }

/-- The state after the executor finishes the task of `c6state`. -/
def c6stateAfter : GatewayState :=
  (stepFn c6state (.finish "w6" sampleEnv "n" 2)).getD initialState

/-- The record of `c6state`. -/
def c6rec : TaskRecord := (lookupStore c6state.task_store "w6").getD defaultRecord

/-- The record of `c6stateAfter`. -/
def c6recAfter : TaskRecord :=
  (lookupStore c6stateAfter.task_store "w6").getD defaultRecord

/-- Sample state with one stored completed record, for lookups. -/
def c9state : GatewayState :=
  { task_store := [("w9", { id := "w9", request := mkReq .backup,
                            status := .completed, created_at := 0,
                            updated_at := 1, result := some (.obj []),
                            error := none })],
    total := 1, completed := 1, failed := 0, by_type := [(.backup, 1)] }

/-- The record of `c9state`. -/
def c9rec : TaskRecord := (lookupStore c9state.task_store "w9").getD defaultRecord

/-- Sample state with one record processing a dns_update request. -/
def c10state : GatewayState :=
  { task_store := [("w10", { id := "w10", request := mkReq .dns_update,
                             status := .processing, created_at := 0,
                             updated_at := 0, result := none, error := none })],
    total := 1, completed := 0, failed := 0, by_type := [(.dns_update, 1)] }

/-- The state after the executor finishes the task of `c10state`. -/
def c10stateAfter : GatewayState :=
  (stepFn c10state (.finish "w10" sampleEnv "n" 5)).getD initialState

/-- The record of `c10state`. -/
def c10rec : TaskRecord :=
  (lookupStore c10state.task_store "w10").getD defaultRecord

lemma lookupStore_append (l l2 : List (String × TaskRecord)) (k : String) :
    lookupStore (l ++ l2) k =
      (match lookupStore l k with
       | some r => some r
       | none => lookupStore l2 k) := by
  induction l with
  | nil => simp [lookupStore]
  | cons p rest ih =>
      by_cases h : p.1 = k
      · simp [lookupStore, h]
      · simp [lookupStore, h, ih]

lemma storeSet_fresh (l : List (String × TaskRecord)) (k : String) (v : TaskRecord)
    (h : lookupStore l k = none) : storeSet l k v = l ++ [(k, v)] := by
  induction l with
  | nil => simp [storeSet]
  | cons p rest ih =>
      by_cases hk : p.1 = k
      · simp [lookupStore, hk] at h
      · simp [lookupStore, hk] at h
        simp [storeSet, hk, ih h]

lemma lookupStore_updateStore_self (l : List (String × TaskRecord)) (k : String)
    (v r : TaskRecord) (h : lookupStore l k = some r) :
    lookupStore (updateStore l k v) k = some v := by
  induction l with
  | nil => simp [lookupStore] at h
  | cons p rest ih =>
      by_cases hk : p.1 = k
      · simp [updateStore, hk, lookupStore]
      · simp [lookupStore, hk] at h
        simp [updateStore, hk, lookupStore, ih h]

lemma lookupStore_updateStore_other (l : List (String × TaskRecord)) (k k' : String)
    (v : TaskRecord) (h : k' ≠ k) :
    lookupStore (updateStore l k v) k' = lookupStore l k' := by
  induction l with
  | nil => simp [updateStore]
  | cons p rest ih =>
      by_cases hk : p.1 = k
      · have hne : ¬ (k = k') := fun hc => h hc.symm
        simp [updateStore, hk, lookupStore, hne]
      · simp [updateStore, hk, lookupStore, ih]

lemma updateStore_length (l : List (String × TaskRecord)) (k : String) (v : TaskRecord) :
    (updateStore l k v).length = l.length := by
  induction l with
  | nil => simp [updateStore]
  | cons p rest ih =>
      by_cases hk : p.1 = k
      · simp [updateStore, hk]
      · simp [updateStore, hk, ih]

lemma countTerminal_append_single (l : List (String × TaskRecord)) (k : String)
    (v : TaskRecord) : countTerminal (l ++ [(k, v)]) = countTerminal l + termBit v := by
  induction l with
  | nil => simp [countTerminal]
  | cons p rest ih => simp [countTerminal, ih]; omega

lemma countTerminal_updateStore (l : List (String × TaskRecord)) (k : String)
    (v r : TaskRecord) (h : lookupStore l k = some r) :
    countTerminal (updateStore l k v) + termBit r = countTerminal l + termBit v := by
  induction l with
  | nil => simp [lookupStore] at h
  | cons p rest ih =>
      by_cases hk : p.1 = k
      · simp [lookupStore, hk] at h
        simp [updateStore, hk, countTerminal, h]
        omega
      · simp [lookupStore, hk] at h
        simp [updateStore, hk, countTerminal]
        have := ih h
        omega

lemma countTerminal_le_length (l : List (String × TaskRecord)) :
    countTerminal l ≤ l.length := by
  induction l with
  | nil => simp [countTerminal]
  | cons p rest ih =>
      have : termBit p.2 ≤ 1 := by
        unfold termBit; split <;> omega
      simp [countTerminal]
      omega

lemma getType_setType_self (m : List (TaskType × Nat)) (t : TaskType) (n : Nat) :
    getType (setType m t n) t = n := by
  induction m with
  | nil => simp [setType, getType]
  | cons p rest ih =>
      by_cases hk : p.1 = t
      · simp [setType, hk, getType]
      · simp [setType, hk, getType, ih]

lemma getType_setType_other (m : List (TaskType × Nat)) (t t' : TaskType) (n : Nat)
    (h : t' ≠ t) : getType (setType m t n) t' = getType m t' := by
  induction m with
  | nil =>
      have hne : ¬ (t = t') := fun hc => h hc.symm
      simp [setType, getType, hne]
  | cons p rest ih =>
      by_cases hk : p.1 = t
      · have hne : ¬ (t = t') := fun hc => h hc.symm
        simp [setType, hk, getType, hne]
      · simp [setType, hk, getType, ih]


lemma inv_initialState : GatewayInv initialState := by
  refine ⟨rfl, rfl, ?_⟩
  intro id r h
  simp [initialState, lookupStore] at h

lemma stepFn_inv (s s' : GatewayState) (e : Event) (hInv : GatewayInv s)
    (h : stepFn s e = some s') :
    GatewayInv s' ∧ s'.total = s.total + countSubmits [e] := by
  obtain ⟨hT, hC, hS⟩ := hInv
  cases e with
  | submit task task_id now =>
      simp only [stepFn] at h
      split at h
      case h_2 => exact absurd h (by simp)
      case h_1 heq =>
        injection h with h
        subst h
        have hfresh := storeSet_fresh s.task_store task_id
          { id := task_id, request := task, status := .pending,
            created_at := now, updated_at := now, result := none, error := none }
          heq
        refine ⟨⟨?_, ?_, ?_⟩, ?_⟩
        · simp [create_task, hfresh, hT]
        · simp [create_task, hfresh, countTerminal_append_single, termBit, hC]
        · intro id' r' hlook
          simp only [create_task] at hlook
          rw [hfresh, lookupStore_append] at hlook
          rcases hr : lookupStore s.task_store id' with _ | rold
          · rw [hr] at hlook
            simp only [lookupStore] at hlook
            by_cases hid : task_id = id'
            · rw [if_pos hid] at hlook
              injection hlook with hlook
              subst hlook
              simp [RecordOK]
            · rw [if_neg hid] at hlook
              exact absurd hlook (by simp)
          · rw [hr] at hlook
            injection hlook with hlook
            subst hlook
            exact hS _ _ hr
        · simp [create_task, countSubmits]
  | start task_id now =>
      simp only [stepFn] at h
      split at h
      case h_1 => exact absurd h (by simp)
      case h_2 r heq =>
        split at h
        case isFalse => exact absurd h (by simp)
        case isTrue hp =>
          injection h with h
          subst h
          have hrOK := hS _ _ heq
          refine ⟨⟨?_, ?_, ?_⟩, ?_⟩
          · simp [updateStore_length, hT]
          · have hcnt := countTerminal_updateStore s.task_store task_id
              { r with status := .processing, updated_at := now } r heq
            simp only [termBit, hp] at hcnt
            simp only [termBit]
            simp at hcnt
            simp [hC]
            omega
          · intro id' r' hlook
            by_cases hid : id' = task_id
            · subst hid
              rw [lookupStore_updateStore_self _ _ _ r heq] at hlook
              injection hlook with hlook
              subst hlook
              obtain ⟨h1, h2⟩ := hrOK
              constructor
              · simpa [hp] using h1
              · simpa [hp] using h2
            · rw [lookupStore_updateStore_other _ _ _ _ hid] at hlook
              exact hS _ _ hlook
          · simp [countSubmits]
  | finish task_id env nowStr now =>
      simp only [stepFn] at h
      split at h
      case h_1 => exact absurd h (by simp)
      case h_2 r heq =>
        split at h
        case isFalse => exact absurd h (by simp)
        case isTrue hp =>
          have hrOK := hS _ _ heq
          obtain ⟨h1, h2⟩ := hrOK
          have hres : r.result = none := by
            rcases hr : r.result with _ | v
            · rfl
            · rw [hr] at h1
              simp [hp] at h1
          have herr : r.error = none := by
            rcases hr : r.error with _ | v
            · rfl
            · rw [hr] at h2
              simp [hp] at h2
          split at h
          case h_1 v hroute =>
            injection h with h
            subst h
            refine ⟨⟨?_, ?_, ?_⟩, ?_⟩
            · simp [updateStore_length, hT]
            · have hcnt := countTerminal_updateStore s.task_store task_id
                { r with status := .completed, result := some v, updated_at := now } r heq
              simp only [termBit, hp] at hcnt
              simp at hcnt
              simp [hC]
              omega
            · intro id' r' hlook
              by_cases hid : id' = task_id
              · subst hid
                rw [lookupStore_updateStore_self _ _ _ r heq] at hlook
                injection hlook with hlook
                subst hlook
                constructor
                · simp
                · simp [herr]
              · rw [lookupStore_updateStore_other _ _ _ _ hid] at hlook
                exact hS _ _ hlook
            · simp [countSubmits]
          case h_2 err hroute =>
            injection h with h
            subst h
            refine ⟨⟨?_, ?_, ?_⟩, ?_⟩
            · simp [updateStore_length, hT]
            · have hcnt := countTerminal_updateStore s.task_store task_id
                { r with status := .failed, error := some err.str, updated_at := now } r heq
              simp only [termBit, hp] at hcnt
              simp at hcnt
              simp [hC]
              omega
            · intro id' r' hlook
              by_cases hid : id' = task_id
              · subst hid
                rw [lookupStore_updateStore_self _ _ _ r heq] at hlook
                injection hlook with hlook
                subst hlook
                constructor
                · simp [hres]
                · simp
              · rw [lookupStore_updateStore_other _ _ _ _ hid] at hlook
                exact hS _ _ hlook
            · simp [countSubmits]

lemma countSubmits_cons (e : Event) (rest : List Event) :
    countSubmits (e :: rest) = countSubmits [e] + countSubmits rest := by
  cases e <;> simp [countSubmits]

lemma execTrace_inv (evs : List Event) (s0 s : GatewayState) (hInv : GatewayInv s0)
    (h : execTrace evs s0 = some s) :
    GatewayInv s ∧ s.total = s0.total + countSubmits evs := by
  induction evs generalizing s0 with
  | nil =>
      simp only [execTrace] at h
      injection h with h
      subst h
      exact ⟨hInv, by simp [countSubmits]⟩
  | cons e rest ih =>
      simp only [execTrace] at h
      split at h
      case h_2 => exact absurd h (by simp)
      case h_1 st' heq =>
        have h1 := stepFn_inv s0 st' e hInv heq
        have h2 := ih st' h1.1 h
        refine ⟨h2.1, ?_⟩
        rw [countSubmits_cons]
        omega

/-- C1: the routing table is NOT exhaustive over the declared `TaskType`
enumeration. `rate_limit` is a declared member which the code's own
capability table assigns to the cloudflare family, yet `route_task` sends
it to the UnknownTaskType / 400 error branch, contradicting both the spec
and the `get_task_service` table of the same module. -/
theorem C1_rate_limit_unroutable :
    route_task sampleEnv "t0" (mkReq .rate_limit) =
      .error { status_code := 400, detail := "Unknown task type: rate_limit" } ∧
    get_task_service .rate_limit = "cloudflare" := by
  exact ⟨rfl, rfl⟩

/-- C2 counterexample: a system_metric task whose downstream Pi call fails
(`failEnv`) is NOT marked failed: the executor marks it completed with the
swallowed error payload as its result, the `error` field stays unset, the
`completed` metric is incremented and `failed` stays 0 — refuting the
claim that any downstream failure yields status=failed. -/
theorem C2_counterexample :
    (execTrace c2trace initialState).map
      (fun s => ((lookupStore s.task_store "t-c2").map TaskRecord.status,
                 (lookupStore s.task_store "t-c2").map TaskRecord.error,
                 (lookupStore s.task_store "t-c2").map TaskRecord.result,
                 s.completed, s.failed))
      = some (some .completed, some none,
              some (some (errPayload "conn refused")), 1, 0) := by
  exact rfl

/-- C3 counterexample: a backup task is routed to the hybrid handler but
gets an empty result object — no "system" entry and no "cloudflare"
entry — refuting the claim that both hybrid types compose both
sub-results. -/
theorem C3_counterexample :
    execute_hybrid_task sampleEnv "t0" (mkReq .backup) = .obj [] ∧
    Val.get (execute_hybrid_task sampleEnv "t0" (mkReq .backup)) "system" = none ∧
    Val.get (execute_hybrid_task sampleEnv "t0" (mkReq .backup)) "cloudflare" = none := by
  exact ⟨rfl, rfl, rfl⟩

/-- C2 (amended): the executor marks a ledger entry failed — capturing the
error message and incrementing the `failed` metric — exactly when an
exception escapes the handler (i.e. `route_task` raises); on any normal
handler return (including handlers that internally swallow a downstream
failure into an error payload) it marks the entry completed with the
handler's return value and increments `completed`. -/
theorem C2_finish_semantics (s : GatewayState) (task_id : String) (env : Env)
    (nowStr : String) (now : Nat) (r : TaskRecord)
    (hlook : lookupStore s.task_store task_id = some r)
    (hp : r.status = Status.processing) :
    (∀ v, route_task env nowStr r.request = .ok v →
      stepFn s (.finish task_id env nowStr now) =
        some { s with
               task_store := updateStore s.task_store task_id
                 ({ r with status := .completed, result := some v, updated_at := now }),
               completed := s.completed + 1 }) ∧
    (∀ e, route_task env nowStr r.request = .error e →
      stepFn s (.finish task_id env nowStr now) =
        some { s with
               task_store := updateStore s.task_store task_id
                 ({ r with status := .failed, error := some e.str, updated_at := now }),
               failed := s.failed + 1 }) := by
  constructor
  · intro v hroute
    simp [stepFn, hlook, hp, hroute]
  · intro e hroute
    simp [stepFn, hlook, hp, hroute]

/-- C2 witness: finishing a processing rate_limit task (the one case whose
routing raises) marks it failed with the captured message and bumps the
`failed` metric. -/
theorem C2_finish_semantics_witness :
    lookupStore c2procState.task_store "w2" = some c2procRecord ∧
    c2procRecord.status = Status.processing ∧
    route_task sampleEnv "t" c2procRecord.request = .error rlErr ∧
    stepFn c2procState (.finish "w2" sampleEnv "t" 3) =
      some { c2procState with
             task_store := updateStore c2procState.task_store "w2"
               ({ c2procRecord with
                  status := .failed, error := some rlErr.str, updated_at := 3 }),
             failed := c2procState.failed + 1 } := by
  refine ⟨rfl, rfl, rfl, ?_⟩
  exact (C2_finish_semantics c2procState "w2" sampleEnv "t" 3 c2procRecord rfl rfl).2
    rlErr rfl

/-- C3 (amended): for a security_scan task the hybrid handler returns one
object keyed by sub-service name, with the "system" entry holding the
system-metrics sub-result and the "cloudflare" entry the firewall-listing
sub-result; for a backup task it returns an empty object with neither
entry. -/
theorem C3_hybrid_composition (env : Env) (nowStr : String) (task : TaskRequest) :
    (task.type = TaskType.security_scan →
      execute_hybrid_task env nowStr task =
        .obj [("system", execute_pi_task env
                 { type := .system_metric, priority := task.priority, data := [],
                   schedule := none, retry_count := 3, timeout := 300 }),
              ("cloudflare", execute_cloudflare_task nowStr
                 { type := .firewall_rule, priority := task.priority,
                   data := [("action", .str "list")], schedule := none,
                   retry_count := 3, timeout := 300 })]) ∧
    (task.type = TaskType.backup →
      execute_hybrid_task env nowStr task = .obj []) := by
  constructor
  · intro ht
    simp [execute_hybrid_task, ht]
  · intro ht
    simp [execute_hybrid_task, ht]

/-- C3 witness: a concrete security_scan request composes both
sub-results. -/
theorem C3_hybrid_composition_witness :
    (mkReq .security_scan).type = TaskType.security_scan ∧
    execute_hybrid_task sampleEnv "t1" (mkReq .security_scan) =
      .obj [("system", execute_pi_task sampleEnv
               { type := .system_metric, priority := (mkReq .security_scan).priority,
                 data := [], schedule := none, retry_count := 3, timeout := 300 }),
            ("cloudflare", execute_cloudflare_task "t1"
               { type := .firewall_rule, priority := (mkReq .security_scan).priority,
                 data := [("action", .str "list")], schedule := none,
                 retry_count := 3, timeout := 300 })] := by
  exact ⟨rfl, (C3_hybrid_composition sampleEnv "t1" (mkReq .security_scan)).1 rfl⟩

/-- C4: in every state reachable by a trace of events from process start,
`completed + failed ≤ total`, and `total` equals the number of successful
submissions in the trace. (In the model, metrics change only in the
submission and executor transitions — those are the only events.) -/
theorem C4_metrics_invariant (evs : List Event) (s : GatewayState)
    (h : execTrace evs initialState = some s) :
    s.completed + s.failed ≤ s.total ∧ s.total = countSubmits evs := by
  have hi := execTrace_inv evs initialState s inv_initialState h
  obtain ⟨⟨hT, hC, _⟩, htot⟩ := hi
  constructor
  · rw [hC, hT]
    exact countTerminal_le_length _
  · simpa [initialState] using htot

/-- C4 witness: the invariant evaluated on a concrete submit/start/finish
trace. -/
theorem C4_metrics_invariant_witness :
    execTrace c4trace initialState = some c4state ∧
    c4state.completed + c4state.failed ≤ c4state.total ∧
    c4state.total = countSubmits c4trace := by
  exact ⟨rfl, (C4_metrics_invariant c4trace c4state rfl).1,
         (C4_metrics_invariant c4trace c4state rfl).2⟩

/-- C5: in every reachable state, every ledger record has `result` set iff
its status is completed and `error` set iff its status is failed; in
particular exactly one of the two is set once the status is terminal. -/
theorem C5_result_error_exclusive (evs : List Event) (s : GatewayState)
    (h : execTrace evs initialState = some s) (id : String) (r : TaskRecord)
    (hr : lookupStore s.task_store id = some r) :
    (r.result.isSome ↔ r.status = Status.completed) ∧
    (r.error.isSome ↔ r.status = Status.failed) ∧
    (r.status = Status.completed ∨ r.status = Status.failed →
      (r.result.isSome ∧ r.error = none) ∨ (r.error.isSome ∧ r.result = none)) := by
  have hi := (execTrace_inv evs initialState s inv_initialState h).1
  obtain ⟨_, _, hS⟩ := hi
  obtain ⟨h1, h2⟩ := hS id r hr
  refine ⟨h1, h2, ?_⟩
  intro hterm
  rcases hterm with hc | hf
  · left
    refine ⟨h1.mpr hc, ?_⟩
    have hno : ¬ r.error.isSome = true := by
      rw [h2, hc]
      simp
    simpa using hno
  · right
    refine ⟨h2.mpr hf, ?_⟩
    have hno : ¬ r.result.isSome = true := by
      rw [h1, hf]
      simp
    simpa using hno

/-- C5 witness: the record produced by a concrete completed run satisfies
the exclusivity property. -/
theorem C5_result_error_exclusive_witness :
    execTrace c5trace initialState = some c5state ∧
    lookupStore c5state.task_store "t-c5" = some c5record ∧
    ((c5record.result.isSome ↔ c5record.status = Status.completed) ∧
     (c5record.error.isSome ↔ c5record.status = Status.failed) ∧
     (c5record.status = Status.completed ∨ c5record.status = Status.failed →
       (c5record.result.isSome ∧ c5record.error = none) ∨
       (c5record.error.isSome ∧ c5record.result = none))) := by
  exact ⟨rfl, rfl, C5_result_error_exclusive c5trace c5state rfl "t-c5" c5record rfl⟩

/-- C6: no step of the system regresses a record's status: along
pending → processing → terminal each step either leaves a record's status
unchanged or moves it to a strictly later stage, and a record that has
reached a terminal status is never touched again (its whole record is
unchanged by every further step). -/
theorem C6_status_monotone (s s' : GatewayState) (e : Event) (id : String)
    (r r' : TaskRecord) (hstep : stepFn s e = some s')
    (hr : lookupStore s.task_store id = some r)
    (hr' : lookupStore s'.task_store id = some r') :
    Status.le r.status r'.status ∧ (Status.isTerminal r.status → r' = r) := by
  cases e with
  | submit task task_id now =>
      simp only [stepFn] at hstep
      split at hstep
      case h_2 => exact absurd hstep (by simp)
      case h_1 heq =>
        injection hstep with hstep
        subst hstep
        simp only [create_task] at hr'
        rw [storeSet_fresh _ _ _ heq, lookupStore_append] at hr'
        rw [hr] at hr'
        injection hr' with hr'
        subst hr'
        exact ⟨Or.inl rfl, fun _ => rfl⟩
  | start task_id now =>
      simp only [stepFn] at hstep
      split at hstep
      case h_1 => exact absurd hstep (by simp)
      case h_2 r0 heq =>
        split at hstep
        case isFalse => exact absurd hstep (by simp)
        case isTrue hp =>
          injection hstep with hstep
          subst hstep
          by_cases hid : id = task_id
          · subst hid
            rw [lookupStore_updateStore_self _ _ _ r0 heq] at hr'
            injection hr' with hr'
            subst hr'
            rw [heq] at hr
            injection hr with hr
            subst hr
            refine ⟨Or.inr ?_, ?_⟩
            · rw [hp]
              show Status.rank Status.pending < Status.rank Status.processing
              decide
            · intro hterm
              rw [hp] at hterm
              rcases hterm with hterm | hterm <;> exact absurd hterm (by decide)
          · rw [lookupStore_updateStore_other _ _ _ _ hid] at hr'
            rw [hr] at hr'
            injection hr' with hr'
            subst hr'
            exact ⟨Or.inl rfl, fun _ => rfl⟩
  | finish task_id env nowStr now =>
      simp only [stepFn] at hstep
      split at hstep
      case h_1 => exact absurd hstep (by simp)
      case h_2 r0 heq =>
        split at hstep
        case isFalse => exact absurd hstep (by simp)
        case isTrue hp =>
          split at hstep
          case h_1 v hroute =>
            injection hstep with hstep
            subst hstep
            by_cases hid : id = task_id
            · subst hid
              rw [lookupStore_updateStore_self _ _ _ r0 heq] at hr'
              injection hr' with hr'
              subst hr'
              rw [heq] at hr
              injection hr with hr
              subst hr
              refine ⟨Or.inr ?_, ?_⟩
              · rw [hp]
                show Status.rank Status.processing < Status.rank Status.completed
                decide
              · intro hterm
                rw [hp] at hterm
                rcases hterm with hterm | hterm <;> exact absurd hterm (by decide)
            · rw [lookupStore_updateStore_other _ _ _ _ hid] at hr'
              rw [hr] at hr'
              injection hr' with hr'
              subst hr'
              exact ⟨Or.inl rfl, fun _ => rfl⟩
          case h_2 err hroute =>
            injection hstep with hstep
            subst hstep
            by_cases hid : id = task_id
            · subst hid
              rw [lookupStore_updateStore_self _ _ _ r0 heq] at hr'
              injection hr' with hr'
              subst hr'
              rw [heq] at hr
              injection hr with hr
              subst hr
              refine ⟨Or.inr ?_, ?_⟩
              · rw [hp]
                show Status.rank Status.processing < Status.rank Status.failed
                decide
              · intro hterm
                rw [hp] at hterm
                rcases hterm with hterm | hterm <;> exact absurd hterm (by decide)
            · rw [lookupStore_updateStore_other _ _ _ _ hid] at hr'
              rw [hr] at hr'
              injection hr' with hr'
              subst hr'
              exact ⟨Or.inl rfl, fun _ => rfl⟩

/-- C6 witness: finishing a concrete processing task moves its status
strictly forward. -/
theorem C6_status_monotone_witness :
    stepFn c6state (.finish "w6" sampleEnv "n" 2) = some c6stateAfter ∧
    lookupStore c6state.task_store "w6" = some c6rec ∧
    lookupStore c6stateAfter.task_store "w6" = some c6recAfter ∧
    (Status.le c6rec.status c6recAfter.status ∧
     (Status.isTerminal c6rec.status → c6recAfter = c6rec)) := by
  exact ⟨rfl, rfl, rfl,
         C6_status_monotone c6state c6stateAfter (.finish "w6" sampleEnv "n" 2)
           "w6" c6rec c6recAfter rfl rfl rfl⟩

/-- C7: given a fresh identifier (the uuid4 oracle, fresh with negligible
collision probability per the spec), submission appends exactly one
pending record under that id, increments `total` and the submitted type's
per-type counter each by one, leaves the execution metrics untouched, and
returns — before any execution step — a response carrying the id, status
"pending" and estimated completion `now + request.timeout`. -/
theorem C7_submit_spec (st : GatewayState) (task : TaskRequest) (task_id : String)
    (now : Nat) (hfresh : lookupStore st.task_store task_id = none) :
    (create_task st task task_id now).1.task_store =
      st.task_store ++
        [(task_id, { id := task_id, request := task, status := .pending,
                     created_at := now, updated_at := now,
                     result := none, error := none })] ∧
    lookupStore (create_task st task task_id now).1.task_store task_id =
      some { id := task_id, request := task, status := .pending,
             created_at := now, updated_at := now, result := none, error := none } ∧
    (create_task st task task_id now).1.total = st.total + 1 ∧
    getType (create_task st task task_id now).1.by_type task.type =
      getType st.by_type task.type + 1 ∧
    (∀ t, t ≠ task.type →
      getType (create_task st task task_id now).1.by_type t = getType st.by_type t) ∧
    (create_task st task task_id now).1.completed = st.completed ∧
    (create_task st task task_id now).1.failed = st.failed ∧
    (create_task st task task_id now).2 =
      { task_id := task_id, status := "pending",
        message := "Task " ++ task.type.toStr ++ " queued for processing",
        created_at := now,
        estimated_completion := some (now + task.timeout) } := by
  have hset := storeSet_fresh st.task_store task_id
    { id := task_id, request := task, status := .pending,
      created_at := now, updated_at := now, result := none, error := none } hfresh
  refine ⟨?_, ?_, rfl, ?_, ?_, rfl, rfl, rfl⟩
  · simp [create_task, hset]
  · simp only [create_task]
    rw [hset, lookupStore_append, hfresh]
    simp [lookupStore]
  · simp [create_task, bumpType, getType_setType_self]
  · intro t ht
    simp [create_task, bumpType, getType_setType_other _ _ _ _ ht]

/-- C7 witness: a concrete cache_purge submission into the empty initial
state. -/
theorem C7_submit_spec_witness :
    lookupStore initialState.task_store "t-c7" = none ∧
    (create_task initialState (mkReq .cache_purge) "t-c7" 7).1.task_store =
      initialState.task_store ++
        [("t-c7", { id := "t-c7", request := mkReq .cache_purge, status := .pending,
                    created_at := 7, updated_at := 7,
                    result := none, error := none })] ∧
    (create_task initialState (mkReq .cache_purge) "t-c7" 7).1.total =
      initialState.total + 1 ∧
    getType (create_task initialState (mkReq .cache_purge) "t-c7" 7).1.by_type
        (mkReq .cache_purge).type =
      getType initialState.by_type (mkReq .cache_purge).type + 1 ∧
    (create_task initialState (mkReq .cache_purge) "t-c7" 7).2 =
      { task_id := "t-c7", status := "pending",
        message := "Task " ++ (mkReq .cache_purge).type.toStr ++ " queued for processing",
        created_at := 7,
        estimated_completion := some (7 + (mkReq .cache_purge).timeout) } := by
  have h := C7_submit_spec initialState (mkReq .cache_purge) "t-c7" 7 rfl
  exact ⟨rfl, h.1, h.2.2.1, h.2.2.2.1, h.2.2.2.2.2.2.2⟩

/-- C8: a submission whose raw type string is outside the declared
enumeration is rejected by validation with a 4xx client error (422),
the returned state is exactly the prior state — so no ledger entry is
created and `total` (and every other counter) keeps its value. -/
theorem C8_invalid_type_rejected (st : GatewayState) (typeStr : String)
    (priority : Priority) (data : List (String × Val)) (schedule : Option String)
    (retry_count : Nat) (timeout : Nat) (task_id : String) (now : Nat)
    (h : ∀ t : TaskType, typeStr ≠ t.toStr) :
    handle_post_task st typeStr priority data schedule retry_count timeout task_id now =
      (st, .error { status_code := 422, detail := "Input should be a valid TaskType" }) ∧
    (handle_post_task st typeStr priority data schedule retry_count
        timeout task_id now).1.total = st.total ∧
    400 ≤ (422 : Nat) ∧ (422 : Nat) < 500 := by
  have h1 : typeStr ≠ "dns_update" := h .dns_update
  have h2 : typeStr ≠ "cache_purge" := h .cache_purge
  have h3 : typeStr ≠ "ssl_check" := h .ssl_check
  have h4 : typeStr ≠ "firewall_rule" := h .firewall_rule
  have h5 : typeStr ≠ "rate_limit" := h .rate_limit
  have h6 : typeStr ≠ "worker_deploy" := h .worker_deploy
  have h7 : typeStr ≠ "analytics_query" := h .analytics_query
  have h8 : typeStr ≠ "health_check" := h .health_check
  have h9 : typeStr ≠ "system_metric" := h .system_metric
  have h10 : typeStr ≠ "backup" := h .backup
  have h11 : typeStr ≠ "security_scan" := h .security_scan
  have hp : parseTaskType typeStr = none := by
    simp [parseTaskType, h1, h2, h3, h4, h5, h6, h7, h8, h9, h10, h11]
  refine ⟨?_, ?_, by omega, by omega⟩
  · simp [handle_post_task, hp]
  · simp [handle_post_task, hp]

/-- C8 witness: the concrete bogus submission from the spec scenario. -/
theorem C8_invalid_type_rejected_witness :
    (∀ t : TaskType, "bogus_type" ≠ t.toStr) ∧
    handle_post_task initialState "bogus_type" .medium [] none 3 300 "t-c8" 0 =
      (initialState,
       .error { status_code := 422, detail := "Input should be a valid TaskType" }) ∧
    (handle_post_task initialState "bogus_type" .medium [] none 3 300
        "t-c8" 0).1.total = initialState.total := by
  have hb : ∀ t : TaskType, "bogus_type" ≠ t.toStr := by
    intro t
    cases t <;> decide
  have h := C8_invalid_type_rejected initialState "bogus_type" .medium [] none 3 300
    "t-c8" 0 hb
  exact ⟨hb, h.1, h.2.1⟩

/-- C9: looking a task up fails with 404 "Task not found" exactly when the
identifier is absent from the ledger, and otherwise returns the stored
record itself (the handler is a pure read: it takes the state and returns
a value, so it cannot modify the record). -/
theorem C9_get_task_spec (st : GatewayState) (task_id : String) :
    (get_task st task_id =
        .error { status_code := 404, detail := "Task not found" } ↔
      lookupStore st.task_store task_id = none) ∧
    (∀ r, lookupStore st.task_store task_id = some r →
      get_task st task_id = .ok r) := by
  rcases hl : lookupStore st.task_store task_id with _ | r
  · refine ⟨by simp [get_task, hl], ?_⟩
    intro r hr
    exact absurd hr (by simp)
  · refine ⟨by simp [get_task, hl], ?_⟩
    intro r2 hr2
    injection hr2 with hr2
    subst hr2
    simp [get_task, hl]

/-- C9 witness: lookups against a concrete one-entry ledger — an unknown
id yields 404, the stored id yields its record. -/
theorem C9_get_task_spec_witness :
    lookupStore c9state.task_store "missing" = none ∧
    get_task c9state "missing" =
      .error { status_code := 404, detail := "Task not found" } ∧
    lookupStore c9state.task_store "w9" = some c9rec ∧
    get_task c9state "w9" = .ok c9rec := by
  exact ⟨rfl, (C9_get_task_spec c9state "missing").1.mpr rfl, rfl,
         (C9_get_task_spec c9state "w9").2 c9rec rfl⟩

/-- C10: for every cloudflare-family task the router resolves to the pure
`execute_cloudflare_task`, whose result does not depend on the downstream
environment (no outbound call), never fails, and always carries
status "success"; consequently finishing such a task always lands in the
completed state, whatever the environment. -/
theorem C10_cloudflare_deterministic (env env2 : Env) (nowStr : String)
    (task : TaskRequest)
    (hfam : task.type = TaskType.dns_update ∨ task.type = TaskType.cache_purge ∨
            task.type = TaskType.ssl_check ∨ task.type = TaskType.firewall_rule) :
    route_task env nowStr task = .ok (execute_cloudflare_task nowStr task) ∧
    route_task env nowStr task = route_task env2 nowStr task ∧
    Val.get (execute_cloudflare_task nowStr task) "status" = some (.str "success") ∧
    (∀ (s s' : GatewayState) (id : String) (r : TaskRecord) (now : Nat),
      lookupStore s.task_store id = some r → r.status = Status.processing →
      r.request = task → stepFn s (.finish id env nowStr now) = some s' →
      (lookupStore s'.task_store id).map TaskRecord.status =
        some Status.completed) := by
  have hroute : ∀ e0 : Env,
      route_task e0 nowStr task = .ok (execute_cloudflare_task nowStr task) := by
    intro e0
    rcases hfam with h | h | h | h <;> simp [route_task, h]
  refine ⟨hroute env, (hroute env).trans (hroute env2).symm, rfl, ?_⟩
  intro s s' id r now hl hp hreq hstep
  have hst : stepFn s (.finish id env nowStr now) =
      some { s with
             task_store := updateStore s.task_store id
               ({ r with
                  status := .completed,
                  result := some (execute_cloudflare_task nowStr task),
                  updated_at := now }),
             completed := s.completed + 1 } := by
    simp [stepFn, hl, hp, hreq, hroute env]
  rw [hstep] at hst
  injection hst with hst
  subst hst
  rw [lookupStore_updateStore_self _ _ _ r hl]
  rfl

/-- C10 witness: a concrete dns_update task finished against two different
environments (one with all downstream services failing). -/
theorem C10_cloudflare_deterministic_witness :
    ((mkReq .dns_update).type = TaskType.dns_update ∨
     (mkReq .dns_update).type = TaskType.cache_purge ∨
     (mkReq .dns_update).type = TaskType.ssl_check ∨
     (mkReq .dns_update).type = TaskType.firewall_rule) ∧
    route_task sampleEnv "n" (mkReq .dns_update) =
      .ok (execute_cloudflare_task "n" (mkReq .dns_update)) ∧
    route_task sampleEnv "n" (mkReq .dns_update) =
      route_task failEnv "n" (mkReq .dns_update) ∧
    Val.get (execute_cloudflare_task "n" (mkReq .dns_update)) "status" =
      some (.str "success") ∧
    (lookupStore c10stateAfter.task_store "w10").map TaskRecord.status =
      some Status.completed := by
  have h := C10_cloudflare_deterministic sampleEnv failEnv "n" (mkReq .dns_update)
    (Or.inl rfl)
  exact ⟨Or.inl rfl, h.1, h.2.1, h.2.2.1,
         h.2.2.2 c10state c10stateAfter "w10" c10rec 5 rfl rfl rfl rfl⟩
